import Mathlib

/-!
# Service-A: mTLS listener with SPIFFE identity extraction and SIGHUP reload

Shallow embedding of `src/services/service-a/main.cpp`.

* Bytes are natural numbers. A C `char` buffer is a list of bytes followed by
  an implicit terminating NUL; reading at or past the end of the list yields 0.
* OpenSSL and the operating system are external: what they return is an input
  of the model (`OpenSSL`, `IterInput`, `World`), and what the program does to
  them is recorded, in program order, in a trace of `Event`s.
* The accept loop never returns, so it is modelled by its body `loop_iter`,
  a total function from loop state to loop state, iterated over a finite
  script of per-iteration inputs.
-/

namespace ServiceA

/-! ## Constants of the C headers -/

/-- The constant `GEN_URI` of `<openssl/x509v3.h>`. -/
def GEN_URI : Int := 6

/-- The constant `SIGHUP` of `<signal.h>`. -/
def SIGHUP : Int := 1

/-- The constant `TLS1_2_VERSION` of `<openssl/tls1.h>`. -/
def TLS1_2_VERSION : Nat := 0x0303

/-- The constant `SSL_VERIFY_PEER` of `<openssl/ssl.h>`. -/
def SSL_VERIFY_PEER : Nat := 0x01

/-- The constant `SSL_VERIFY_FAIL_IF_NO_PEER_CERT` of `<openssl/ssl.h>`. -/
def SSL_VERIFY_FAIL_IF_NO_PEER_CERT : Nat := 0x02

/-! ## C strings -/

/-- The ASCII bytes of a string literal. -/
def bytes (s : String) : List Nat := s.toList.map Char.toNat

/-- The bytes of the literal `"spiffe://"`. -/
def spiffe_scheme : List Nat := [115, 112, 105, 102, 102, 101, 58, 47, 47]

/-- Constructing a `std::string` from a `const char*`: the bytes before the
first NUL. -/
def c_str (mem : List Nat) : List Nat := mem.takeWhile (fun b => b != 0)

/-- The C library `strncmp`: compares at most `n` characters and stops at a
NUL; the result is the difference of the first differing characters. -/
def strncmp : List Nat → List Nat → Nat → Int
  | _, _, 0 => 0
  | s1, s2, n + 1 =>
    let c1 := s1.headD 0
    let c2 := s2.headD 0
    if c1 ≠ c2 then (c1 : Int) - (c2 : Int)
    else if c1 = 0 then 0
    else strncmp s1.tail s2.tail n

/-! ## Certificates -/

/-- An `ASN1_STRING`: `data` is `none` for a NULL data pointer, otherwise the
`length` bytes of the value (OpenSSL keeps a NUL after them). -/
structure ASN1_STRING where
  data : Option (List Nat)
  deriving DecidableEq, Repr

/-- The accessor `ASN1_STRING_get0_data`. -/
def ASN1_STRING_get0_data (s : ASN1_STRING) : Option (List Nat) := s.data

/-- A `GENERAL_NAME`: the type tag and, for the only member the program reads,
the string of the union `d`. -/
structure GENERAL_NAME where
  type : Int
  d : ASN1_STRING
  deriving DecidableEq, Repr

/-- An `X509` certificate, as far as the program looks at it:
`subject_alt_name` is what `X509_get_ext_d2i(cert, NID_subject_alt_name, ..)`
returns, `none` for NULL. -/
structure X509 where
  subject_alt_name : Option (List GENERAL_NAME)
  deriving DecidableEq, Repr

/-! ## TLS contexts and sessions -/

/-- An `SSL_CTX`, as far as the program configures it. -/
structure SSL_CTX where
  min_proto_version : Nat
  verify_mode : Nat
  verify_depth : Int
  certificate_file : Option String
  private_key_file : Option String
  verify_locations : Option String
  deriving DecidableEq, Repr

/-- An `SSL` session object: the context it was created from, the descriptor
set on it and the certificate the peer presented. -/
structure SSL where
  ctx : SSL_CTX
  fd : Option Int
  peer_certificate : Option X509
  deriving DecidableEq, Repr

/-- The accessor `SSL_get_peer_certificate`. -/
def SSL_get_peer_certificate (ssl : SSL) : Option X509 := ssl.peer_certificate

/-! ## `get_peer_spiffe_id` -/

/-- The `for` loop of `get_peer_spiffe_id` over the entries not yet visited;
`id` is the local of that name. -/
def scan_names : List GENERAL_NAME → List Nat → List Nat
  | [], id => id
  | name :: rest, id =>
    if name.type = GEN_URI then
      match ASN1_STRING_get0_data name.d with
      | some uri =>
        if strncmp uri spiffe_scheme 9 = 0 then c_str uri
        else scan_names rest id
      | none => scan_names rest id
    else scan_names rest id

/-- The function `get_peer_spiffe_id`. -/
def get_peer_spiffe_id (ssl : SSL) : List Nat :=
  match SSL_get_peer_certificate ssl with
  | none => []
  | some cert =>
    match cert.subject_alt_name with
    | none => []
    | some names => scan_names names []

/-! ## `create_ssl_ctx` -/

/-- What the OpenSSL calls of `create_ssl_ctx` return at one moment (they
depend on the files on disk): whether `SSL_CTX_new` yields a context, and the
return codes of the three loading calls. The private key is checked against
the certificate already loaded, so that call depends on both files. -/
structure OpenSSL where
  SSL_CTX_new : Bool
  SSL_CTX_use_certificate_file : String → Int
  SSL_CTX_use_PrivateKey_file : String → String → Int
  SSL_CTX_load_verify_locations : String → Int

/-- The context `SSL_CTX_new(TLS_server_method())` yields: no version floor,
`SSL_VERIFY_NONE`, default depth, nothing loaded. -/
def SSL_CTX_fresh : SSL_CTX :=
  { min_proto_version := 0, verify_mode := 0, verify_depth := -1,
    certificate_file := none, private_key_file := none, verify_locations := none }

/-- The setter `SSL_CTX_set_min_proto_version`; the program ignores its return
code, and it is taken to succeed. -/
def SSL_CTX_set_min_proto_version (ctx : SSL_CTX) (v : Nat) : SSL_CTX :=
  { ctx with min_proto_version := v }

/-- The setter `SSL_CTX_set_verify` (with a NULL callback). -/
def SSL_CTX_set_verify (ctx : SSL_CTX) (mode : Nat) : SSL_CTX :=
  { ctx with verify_mode := mode }

/-- The setter `SSL_CTX_set_verify_depth`. -/
def SSL_CTX_set_verify_depth (ctx : SSL_CTX) (depth : Int) : SSL_CTX :=
  { ctx with verify_depth := depth }

/-- The function `create_ssl_ctx`; `none` is the `nullptr` result. -/
def create_ssl_ctx (o : OpenSSL) (cert_file key_file ca_file : String) : Option SSL_CTX :=
  if !o.SSL_CTX_new then none
  else
    let ctx := SSL_CTX_fresh
    let ctx := SSL_CTX_set_min_proto_version ctx TLS1_2_VERSION
    let ctx := SSL_CTX_set_verify ctx (SSL_VERIFY_PEER ||| SSL_VERIFY_FAIL_IF_NO_PEER_CERT)
    let ctx := SSL_CTX_set_verify_depth ctx 2
    if o.SSL_CTX_use_certificate_file cert_file ≤ 0 then none
    else
      let ctx := { ctx with certificate_file := some cert_file }
      if o.SSL_CTX_use_PrivateKey_file cert_file key_file ≤ 0 then none
      else
        let ctx := { ctx with private_key_file := some key_file }
        if o.SSL_CTX_load_verify_locations ca_file ≤ 0 then none
        else some { ctx with verify_locations := some ca_file }

/-! ## The signal handler -/

/-- The function `sig_handler`, as a function of the global `g_reload`. -/
def sig_handler (sig : Int) (g_reload : Int) : Int :=
  if sig = SIGHUP then 1 else g_reload

/-- Delivery of a sequence of signals to `sig_handler`, in order. -/
def deliver (sigs : List Int) (g_reload : Int) : Int :=
  sigs.foldl (fun g sig => sig_handler sig g) g_reload

/-! ## `main` -/

/-- What the program does to its environment, in program order. -/
inductive Event where
  | SSL_library_init
  | SSL_load_error_strings
  | OpenSSL_add_all_algorithms
  | signal (sig : Int)
  | create_ssl_ctx (cert key ca : String) (result : Option SSL_CTX)
  | SSL_CTX_free (ctx : SSL_CTX)
  | stdout (data : List Nat)
  | stderr (data : List Nat)
  | socket (fd : Int)
  | bind (fd : Int) (port : Int)
  | listen (fd : Int) (backlog : Int)
  | select (result : Int)
  | accept (client : Int)
  | SSL_new (ssl : SSL)
  | SSL_set_fd (ssl : SSL) (fd : Int)
  | SSL_accept (ssl : SSL) (result : Int)
  | get_peer_spiffe_id (ssl : SSL)
  | SSL_write (ssl : SSL) (data : List Nat)
  | SSL_shutdown (ssl : SSL)
  | SSL_free (ssl : SSL)
  | close (fd : Int)
  deriving DecidableEq, Repr

/-- The locals `cert`, `key`, `ca` and `port` of `main`. -/
structure Config where
  cert : String
  key : String
  ca : String
  port : Int
  deriving DecidableEq, Repr

/-- The argument loop of `main` over the arguments not yet visited; `atoi` is
the C library function. -/
def parse_args (atoi : String → Int) : List String → Config → Config
  | [], c => c
  | [_], c => c
  | a :: b :: rest, c =>
    if a = "--cert" then parse_args atoi rest { c with cert := b }
    else if a = "--key" then parse_args atoi rest { c with key := b }
    else if a = "--ca" then parse_args atoi rest { c with ca := b }
    else if a = "--port" then parse_args atoi rest { c with port := atoi b }
    else parse_args atoi (b :: rest) c

/-- The variables live in the accept loop of `main`, the global `g_reload`
and the trace so far. -/
structure LoopState where
  cfg : Config
  listen_fd : Int
  ctx : SSL_CTX
  g_reload : Int
  trace : List Event
  deriving DecidableEq, Repr

/-- The inputs of one iteration of the accept loop: the signals delivered
since the flag was last tested, what OpenSSL returns should a reload run,
and the results of `select`, `accept` and `SSL_accept` with the certificate
the peer presented. -/
structure IterInput where
  signals : List Int
  openssl : OpenSSL
  select_result : Int
  client : Int
  handshake : Int
  peer : Option X509

/-- The constructor `SSL_new`: a session bound to `ctx`. -/
def SSL_new (ctx : SSL_CTX) : SSL :=
  { ctx := ctx, fd := none, peer_certificate := none }

/-- The setter `SSL_set_fd`. -/
def SSL_set_fd (ssl : SSL) (fd : Int) : SSL :=
  { ssl with fd := some fd }

/-- The C library `strlen`. -/
def strlen (mem : List Nat) : Nat := (c_str mem).length

/-- The literal `resp` of `main`. -/
def resp : List Nat :=
  bytes "HTTP/1.1 200 OK\r\nContent-Type: text/plain\r\n\r\nOK from service-a\n"

/-- Lines 98-106 of `main`: the reload block. -/
def reload_check (o : OpenSSL) (s : LoopState) : LoopState :=
  if s.g_reload ≠ 0 then
    let new_ctx := create_ssl_ctx o s.cfg.cert s.cfg.key s.cfg.ca
    let call := Event.create_ssl_ctx s.cfg.cert s.cfg.key s.cfg.ca new_ctx
    match new_ctx with
    | some n =>
      { s with
        g_reload := 0
        ctx := n
        trace := s.trace ++ [call, Event.SSL_CTX_free s.ctx, Event.stdout (bytes "Certs reloaded\n")] }
    | none => { s with g_reload := 0, trace := s.trace ++ [call] }
  else s

/-- Lines 108-129 of `main`: wait for a connection and serve it. -/
def serve (inp : IterInput) (s : LoopState) : LoopState :=
  if inp.select_result ≤ 0 then
    { s with trace := s.trace ++ [Event.select inp.select_result] }
  else
    let client := inp.client
    let ssl0 := SSL_new s.ctx
    let ssl1 := SSL_set_fd ssl0 client
    if inp.handshake ≤ 0 then
      { s with
        trace := s.trace ++
          [Event.select inp.select_result, Event.accept client, Event.SSL_new ssl0,
           Event.SSL_set_fd ssl0 client, Event.SSL_accept ssl1 inp.handshake,
           Event.stderr (bytes "TLS handshake failed\n"),
           Event.SSL_free ssl1, Event.close client] }
    else
      let ssl := { ssl1 with peer_certificate := inp.peer }
      let peer := get_peer_spiffe_id ssl
      { s with
        trace := s.trace ++
          [Event.select inp.select_result, Event.accept client, Event.SSL_new ssl0,
           Event.SSL_set_fd ssl0 client, Event.SSL_accept ssl1 inp.handshake,
           Event.get_peer_spiffe_id ssl,
           Event.stdout (bytes "Connected: " ++ peer ++ bytes "\n"),
           Event.SSL_write ssl (resp.take (strlen resp)),
           Event.SSL_shutdown ssl, Event.SSL_free ssl, Event.close client] }

/-- One iteration of the `for (;;)` loop of `main`. -/
def loop_iter (inp : IterInput) (s : LoopState) : LoopState :=
  serve inp (reload_check inp.openssl s)

/-- One iteration together with the signals delivered before its flag test. -/
def step (s : LoopState) (inp : IterInput) : LoopState :=
  loop_iter inp { s with g_reload := deliver inp.signals s.g_reload }

/-- The accept loop run over a finite script of iterations. -/
def run (script : List IterInput) (s : LoopState) : LoopState :=
  script.foldl step s

/-- The environment of `main` at startup. -/
structure World where
  openssl : OpenSSL
  atoi : String → Int
  socket : Int

/-- How far `main` has come once a finite script is consumed: it has
returned with a status, or it is still in the accept loop. -/
inductive Outcome where
  | exited (status : Int) (trace : List Event)
  | looping (s : LoopState)

/-- The events of `main` before its first `create_ssl_ctx` call. -/
def startup_trace : List Event :=
  [Event.SSL_library_init, Event.SSL_load_error_strings,
   Event.OpenSSL_add_all_algorithms, Event.signal SIGHUP]

/-- The locals `cert`, `key`, `ca` and `port` of `main` after its argument
loop, which starts at `argv[1]`. -/
def startup_config (w : World) (argv : List String) : Config :=
  parse_args w.atoi argv.tail
    { cert := "/certs/cert.pem", key := "/certs/key.pem", ca := "/certs/chain.pem", port := 8080 }

/-- The function `main`, its accept loop run over `script`. -/
def main (w : World) (argv : List String) (script : List IterInput) : Outcome :=
  let cfg := startup_config w argv
  let ctx? := create_ssl_ctx w.openssl cfg.cert cfg.key cfg.ca
  let call := Event.create_ssl_ctx cfg.cert cfg.key cfg.ca ctx?
  match ctx? with
  | none =>
    Outcome.exited 1
      (startup_trace ++ [call, Event.stderr (bytes "Failed to create SSL context\n")])
  | some ctx =>
    let listen_fd := w.socket
    Outcome.looping (run script
      { cfg := cfg
        listen_fd := listen_fd
        ctx := ctx
        g_reload := 0
        trace := startup_trace ++
          [call, Event.socket listen_fd, Event.bind listen_fd (cfg.port % 65536),
           Event.listen listen_fd 5,
           Event.stdout (bytes "Service-A listening on port " ++ bytes (toString cfg.port)
             ++ bytes " (mTLS)\n")] })

/-! ## Reading the claims: traces -/

/-- The session an event operates on, if any. -/
def Event.session : Event → Option SSL
  | Event.SSL_new ssl => some ssl
  | Event.SSL_set_fd ssl _ => some ssl
  | Event.SSL_accept ssl _ => some ssl
  | Event.get_peer_spiffe_id ssl => some ssl
  | Event.SSL_write ssl _ => some ssl
  | Event.SSL_shutdown ssl => some ssl
  | Event.SSL_free ssl => some ssl
  | _ => none

/-- The event is a `create_ssl_ctx` call. -/
def Event.is_load : Event → Bool
  | Event.create_ssl_ctx _ _ _ _ => true
  | _ => false

/-- The event is output on `stdout` or `stderr`. -/
def Event.is_report : Event → Bool
  | Event.stdout _ => true
  | Event.stderr _ => true
  | _ => false

/-- The event is a `select` call. -/
def Event.is_select : Event → Bool
  | Event.select _ => true
  | _ => false

/-- The event is an `SSL_new` call. -/
def Event.is_SSL_new : Event → Bool
  | Event.SSL_new _ => true
  | _ => false

/-- The event is an `SSL_free` call. -/
def Event.is_SSL_free : Event → Bool
  | Event.SSL_free _ => true
  | _ => false

/-- The event touches a socket or a TLS session. -/
def Event.is_network : Event → Bool
  | Event.socket _ => true
  | Event.bind _ _ => true
  | Event.listen _ _ => true
  | Event.select _ => true
  | Event.accept _ => true
  | Event.close _ => true
  | ev => ev.session.isSome

/-- The bundle of the most recent successful `create_ssl_ctx` call of a trace,
or `c0` when the trace has none. -/
def last_good (c0 : SSL_CTX) : List Event → SSL_CTX
  | [] => c0
  | Event.create_ssl_ctx _ _ _ (some n) :: t => last_good n t
  | _ :: t => last_good c0 t

/-- Sessions created minus sessions freed in a trace. -/
def open_sessions (t : List Event) : Int :=
  (t.countP Event.is_SSL_new : Int) - (t.countP Event.is_SSL_free : Int)

/-- Every session operation of the trace is on a session of the bundle current
at that point, starting from `c0`. -/
def follows (c0 : SSL_CTX) : List Event → Prop
  | [] => True
  | ev :: t => (∀ ssl, ev.session = some ssl → ssl.ctx = c0) ∧ follows (last_good c0 [ev]) t

/-- No session is open at any `create_ssl_ctx` call of the trace, starting
with `k` open sessions. -/
def quiet (k : Int) : List Event → Prop
  | [] => True
  | ev :: t => (ev.is_load = true → k = 0) ∧ quiet (k + open_sessions [ev]) t

/-- What a stretch of the loop guarantees of the events it appends: it ends on
bundle `c1`, every session follows the current bundle, no session is open
across a load or at the end, and `select` was called `n` times. -/
def Inv (c0 : SSL_CTX) (evs : List Event) (c1 : SSL_CTX) (n : Nat) : Prop :=
  c1 = last_good c0 evs ∧ follows c0 evs ∧ quiet 0 evs ∧ open_sessions evs = 0 ∧
    evs.countP Event.is_select = n

/-! ## Reading the claims: entries, values, matches -/

/-- The value of a SAN entry: the bytes of its string (none for a NULL data
pointer). -/
def GENERAL_NAME.value (e : GENERAL_NAME) : List Nat := e.d.data.getD []

/-- A list of bytes begins with `"spiffe://"`. -/
def begins_with_spiffe (v : List Nat) : Prop :=
  v.take spiffe_scheme.length = spiffe_scheme

instance (v : List Nat) : Decidable (begins_with_spiffe v) := by
  unfold begins_with_spiffe; infer_instance

/-- An entry of type URI whose value begins with `"spiffe://"`. -/
def is_spiffe_uri (e : GENERAL_NAME) : Prop :=
  e.type = GEN_URI ∧ begins_with_spiffe e.value

instance (e : GENERAL_NAME) : Decidable (is_spiffe_uri e) := by
  unfold is_spiffe_uri; infer_instance

/-- A URI entry with the given value. -/
def uri_entry (v : List Nat) : GENERAL_NAME := { type := GEN_URI, d := { data := some v } }

/-- A session whose peer presented a certificate with the given SAN entries. -/
def session_with (ctx : SSL_CTX) (names : List GENERAL_NAME) : SSL :=
  { ctx := ctx, fd := none, peer_certificate := some { subject_alt_name := some names } }

/-! ## Concrete inputs -/

/-- A URI entry whose value has a NUL byte after `spiffe://a`. -/
def nul_entry : GENERAL_NAME := uri_entry (bytes "spiffe://a" ++ 0 :: bytes "b")

/-- A DNS-typed entry (`GEN_DNS` is 2) whose value happens to look like a
SPIFFE URI. -/
def dns_entry : GENERAL_NAME := { type := 2, d := { data := some (bytes "spiffe://dns") } }

/-- The SAN list of the spec's example, with a DNS entry before it and a second
SPIFFE URI after it. -/
def example_names : List GENERAL_NAME :=
  [dns_entry, uri_entry (bytes "https://example.com"),
   uri_entry (bytes "spiffe://trust-domain/svc-b"),
   uri_entry (bytes "spiffe://trust-domain/other")]

/-- An environment in which every OpenSSL loading call succeeds. -/
def openssl_ok : OpenSSL :=
  { SSL_CTX_new := true
    SSL_CTX_use_certificate_file := fun _ => 1
    SSL_CTX_use_PrivateKey_file := fun _ _ => 1
    SSL_CTX_load_verify_locations := fun _ => 1 }

/-- An environment in which the private key does not match the certificate. -/
def openssl_bad_key : OpenSSL :=
  { SSL_CTX_new := true
    SSL_CTX_use_certificate_file := fun _ => 1
    SSL_CTX_use_PrivateKey_file := fun _ _ => 0
    SSL_CTX_load_verify_locations := fun _ => 1 }

/-- The context `create_ssl_ctx` builds from `cert.pem`, `key.pem` and
`chain.pem` when every load succeeds. -/
def example_ctx : SSL_CTX :=
  { min_proto_version := 0x0303, verify_mode := 3, verify_depth := 2,
    certificate_file := some "cert.pem", private_key_file := some "key.pem",
    verify_locations := some "chain.pem" }

/-- A bundle loaded from an earlier certificate. -/
def old_ctx : SSL_CTX := { example_ctx with certificate_file := some "old.pem" }

/-- A configuration naming the three example files. -/
def example_cfg : Config :=
  { cert := "cert.pem", key := "key.pem", ca := "chain.pem", port := 8080 }

/-- A loop state on `old_ctx` with the reload flag clear and an empty trace. -/
def idle_state : LoopState :=
  { cfg := example_cfg, listen_fd := 3, ctx := old_ctx, g_reload := 0, trace := [] }

/-- The same loop state with the reload flag set. -/
def flagged_state : LoopState := { idle_state with g_reload := 1 }

/-- An iteration in which `select` times out. -/
def idle_input (sigs : List Int) (o : OpenSSL) : IterInput :=
  { signals := sigs, openssl := o, select_result := 0, client := -1, handshake := 0,
    peer := none }

/-- An iteration in which a client connects, `SSL_accept` returns `handshake`
and the peer certificate, if any, has the SAN entries `names`. -/
def conn_input (sigs : List Int) (o : OpenSSL) (client handshake : Int)
    (peer : Option (List GENERAL_NAME)) : IterInput :=
  { signals := sigs, openssl := o, select_result := 1, client := client,
    handshake := handshake, peer := peer.map (fun names => { subject_alt_name := some names }) }

/-- A connection, then two SIGHUPs with loadable files followed by a second
connection. -/
def reload_script : List IterInput :=
  [conn_input [] openssl_bad_key 4 1 (some example_names),
   conn_input [SIGHUP, SIGHUP] openssl_ok 5 1 (some example_names)]

/-- The bundles of the sessions a trace creates, in order. -/
def created_on (t : List Event) : List SSL_CTX :=
  t.filterMap (fun ev => match ev with
    | Event.SSL_new ssl => some ssl.ctx
    | _ => none)

/-- A startup environment whose private key does not match. -/
def bad_world : World := { openssl := openssl_bad_key, atoi := fun _ => 0, socket := 3 }

/-! ## Lemmas on C strings -/

theorem bytes_spiffe : bytes "spiffe://" = spiffe_scheme := by decide

theorem strncmp_eq_zero_iff (p : List Nat) (hp : ∀ b ∈ p, b ≠ 0) (v : List Nat) :
    strncmp v p p.length = 0 ↔ v.take p.length = p := by
  induction p generalizing v with
  | nil => simp [strncmp]
  | cons a p ih =>
    have ha : a ≠ 0 := hp a (List.mem_cons_self a p)
    have hp2 : ∀ b ∈ p, b ≠ 0 := fun b hb => hp b (List.mem_cons_of_mem a hb)
    cases v with
    | nil =>
      have h0 : ¬ (0 : Nat) = a := fun h => ha h.symm
      simp [strncmp, h0, ha]
    | cons b v =>
      by_cases hba : b = a
      · subst hba
        simp [strncmp, ha, ih hp2 v]
      · have hne : (b : Int) - (a : Int) ≠ 0 := by
          intro h
          apply hba
          omega
        simp [strncmp, hba, hne]

theorem strncmp_spiffe (v : List Nat) :
    strncmp v spiffe_scheme 9 = 0 ↔ begins_with_spiffe v := by
  have h := strncmp_eq_zero_iff spiffe_scheme (by decide) v
  exact h

theorem c_str_no_nul (v : List Nat) : (0 : Nat) ∉ c_str v := by
  intro h
  have := List.mem_takeWhile_imp h
  simp at this

theorem c_str_split (v : List Nat) :
    ∃ rest, v = c_str v ++ rest ∧ (rest = [] ∨ ∃ t, rest = 0 :: t) := by
  induction v with
  | nil => exact ⟨[], by simp [c_str]⟩
  | cons a v ih =>
    by_cases ha : a = 0
    · subst ha
      exact ⟨0 :: v, by simp [c_str]⟩
    · obtain ⟨rest, h1, h2⟩ := ih
      refine ⟨rest, ?_, h2⟩
      have : c_str (a :: v) = a :: c_str v := by
        unfold c_str
        exact List.takeWhile_cons_of_pos (by simpa using ha)
      rw [this]
      simpa using h1

theorem c_str_eq_self_iff (v : List Nat) : c_str v = v ↔ (0 : Nat) ∉ v := by
  constructor
  · intro h
    rw [← h]
    exact c_str_no_nul v
  · intro h
    unfold c_str
    rw [List.takeWhile_eq_self_iff]
    intro b hb
    have : b ≠ 0 := fun h0 => h (h0 ▸ hb)
    simpa using this

theorem c_str_begins_with_spiffe (v : List Nat) (h : begins_with_spiffe v) :
    begins_with_spiffe (c_str v) := by
  unfold begins_with_spiffe at *
  have hv : v = spiffe_scheme ++ v.drop spiffe_scheme.length := by
    conv_lhs => rw [← List.take_append_drop spiffe_scheme.length v]
    rw [h]
  rw [hv]
  simp [c_str, spiffe_scheme, List.takeWhile]

/-! ## Lemmas on the SAN scan -/

theorem scan_names_step (e : GENERAL_NAME) (rest : List GENERAL_NAME) (id : List Nat) :
    scan_names (e :: rest) id =
      if is_spiffe_uri e then c_str e.value else scan_names rest id := by
  obtain ⟨ty, ⟨data⟩⟩ := e
  unfold is_spiffe_uri GENERAL_NAME.value
  rw [scan_names]
  by_cases ht : ty = GEN_URI
  · cases data with
    | none =>
      have : ¬ begins_with_spiffe [] := by decide
      simp [ht, ASN1_STRING_get0_data, this]
    | some uri =>
      simp [ht, ASN1_STRING_get0_data, strncmp_spiffe]
  · simp [ht]

theorem scan_names_no_match (names : List GENERAL_NAME) (id : List Nat)
    (h : ∀ x ∈ names, ¬ is_spiffe_uri x) : scan_names names id = id := by
  induction names with
  | nil => rfl
  | cons e rest ih =>
    rw [scan_names_step, if_neg (h e (List.mem_cons_self e rest))]
    exact ih (fun x hx => h x (List.mem_cons_of_mem e hx))

theorem scan_names_first_match (pre : List GENERAL_NAME) (e : GENERAL_NAME)
    (post : List GENERAL_NAME) (id : List Nat)
    (hpre : ∀ x ∈ pre, ¬ is_spiffe_uri x) (he : is_spiffe_uri e) :
    scan_names (pre ++ e :: post) id = c_str e.value := by
  induction pre with
  | nil => simp [scan_names_step, he]
  | cons x pre ih =>
    rw [List.cons_append, scan_names_step, if_neg (hpre x (List.mem_cons_self x pre))]
    exact ih (fun y hy => hpre y (List.mem_cons_of_mem x hy))

theorem scan_names_nil_or_spiffe (names : List GENERAL_NAME) :
    scan_names names [] = [] ∨
      (begins_with_spiffe (scan_names names []) ∧ (0 : Nat) ∉ scan_names names []) := by
  induction names with
  | nil => exact Or.inl rfl
  | cons e rest ih =>
    rw [scan_names_step]
    by_cases he : is_spiffe_uri e
    · rw [if_pos he]
      exact Or.inr ⟨c_str_begins_with_spiffe _ he.2, c_str_no_nul _⟩
    · rw [if_neg he]
      exact ih

theorem scan_names_eq_nil (names : List GENERAL_NAME) (h : scan_names names [] = []) :
    ∀ x ∈ names, ¬ is_spiffe_uri x := by
  induction names with
  | nil => simp
  | cons e rest ih =>
    rw [scan_names_step] at h
    by_cases he : is_spiffe_uri e
    · rw [if_pos he] at h
      have hb := c_str_begins_with_spiffe _ he.2
      rw [h] at hb
      exact absurd hb (by decide)
    · rw [if_neg he] at h
      intro x hx
      rcases List.mem_cons.mp hx with rfl | hx
      · exact he
      · exact ih h x hx

/-! ## Identity extraction (C1, C7, C10) -/

/-- C1, as stated, fails: for the single URI entry `spiffe://a\0b`, which is
of type URI and begins with `spiffe://`, `get_peer_spiffe_id` returns
`spiffe://a`, not the entry. -/
theorem get_peer_spiffe_id_nul_truncated :
    is_spiffe_uri nul_entry ∧
    get_peer_spiffe_id (session_with SSL_CTX_fresh [nul_entry]) = bytes "spiffe://a" ∧
    get_peer_spiffe_id (session_with SSL_CTX_fresh [nul_entry]) ≠ nul_entry.value := by
  decide

/-- C1, amended: when the SAN list is `pre ++ e :: post`, no entry of `pre` is
a URI entry beginning with `spiffe://` and `e` is one, `get_peer_spiffe_id`
returns the value of `e` read as a C string, whatever `pre` and `post` hold;
that is the value of `e` itself when it has no NUL byte. -/
theorem get_peer_spiffe_id_first_match (ssl : SSL) (cert : X509)
    (pre : List GENERAL_NAME) (e : GENERAL_NAME) (post : List GENERAL_NAME)
    (hc : SSL_get_peer_certificate ssl = some cert)
    (hn : cert.subject_alt_name = some (pre ++ e :: post))
    (hpre : ∀ x ∈ pre, ¬ is_spiffe_uri x) (he : is_spiffe_uri e) :
    get_peer_spiffe_id ssl = c_str e.value ∧
    ((0 : Nat) ∉ e.value → get_peer_spiffe_id ssl = e.value) := by
  have h : get_peer_spiffe_id ssl = c_str e.value := by
    unfold get_peer_spiffe_id
    rw [hc]
    simp only [hn]
    exact scan_names_first_match pre e post [] hpre he
  exact ⟨h, fun h0 => h.trans ((c_str_eq_self_iff e.value).mpr h0)⟩

/-- Witness of C1: the spec's example, with a DNS entry and `https://example.com`
before the match and another SPIFFE URI after it. -/
theorem get_peer_spiffe_id_first_match_witness :
    get_peer_spiffe_id (session_with SSL_CTX_fresh example_names)
      = bytes "spiffe://trust-domain/svc-b" :=
  (get_peer_spiffe_id_first_match (session_with SSL_CTX_fresh example_names)
    { subject_alt_name := some example_names }
    [dns_entry, uri_entry (bytes "https://example.com")]
    (uri_entry (bytes "spiffe://trust-domain/svc-b"))
    [uri_entry (bytes "spiffe://trust-domain/other")]
    rfl rfl (by decide) (by decide)).2 (by decide)

/-- C7: `get_peer_spiffe_id` is a total function without an error result, and
it returns the empty identity when the session has no peer certificate, when
the certificate has no SAN extension, and when no SAN entry is of type URI. -/
theorem get_peer_spiffe_id_absent (ssl : SSL)
    (h : SSL_get_peer_certificate ssl = none ∨
      ∃ cert, SSL_get_peer_certificate ssl = some cert ∧
        (cert.subject_alt_name = none ∨
          ∃ names, cert.subject_alt_name = some names ∧ ∀ x ∈ names, x.type ≠ GEN_URI)) :
    get_peer_spiffe_id ssl = [] := by
  unfold get_peer_spiffe_id
  rcases h with h | ⟨cert, hc, h | ⟨names, hn, hall⟩⟩
  · rw [h]
  · rw [hc]
    simp only [h]
  · rw [hc]
    simp only [hn]
    exact scan_names_no_match names [] (fun x hx hm => hall x hx hm.1)

/-- Witness of C7: no peer certificate, a certificate without SAN extension,
and a certificate whose only SAN entry is a DNS name. -/
theorem get_peer_spiffe_id_absent_witness :
    get_peer_spiffe_id (SSL_new SSL_CTX_fresh) = [] ∧
    get_peer_spiffe_id
      { ctx := SSL_CTX_fresh, fd := none, peer_certificate := some { subject_alt_name := none } }
      = [] ∧
    get_peer_spiffe_id (session_with SSL_CTX_fresh [dns_entry]) = [] :=
  ⟨get_peer_spiffe_id_absent _ (Or.inl rfl),
   get_peer_spiffe_id_absent _ (Or.inr ⟨_, rfl, Or.inl rfl⟩),
   get_peer_spiffe_id_absent _ (Or.inr ⟨_, rfl, Or.inr ⟨_, rfl, by decide⟩⟩)⟩

/-- C10: with `r` the result of `get_peer_spiffe_id`: (1) when `e` is the first
URI entry beginning with `spiffe://`, its value is `r ++ rest` where `rest` is
empty or starts with a NUL byte, and `r` is the whole value exactly when the
value has no NUL byte; (2) a non-empty `r` begins with `spiffe://` and has no
NUL byte; (3) `r` is empty only when no entry of the certificate is a URI
entry beginning with `spiffe://`. -/
theorem get_peer_spiffe_id_c_string (ssl : SSL) :
    (∀ cert pre e post,
      SSL_get_peer_certificate ssl = some cert →
      cert.subject_alt_name = some (pre ++ e :: post) →
      (∀ x ∈ pre, ¬ is_spiffe_uri x) → is_spiffe_uri e →
      (∃ rest, e.value = get_peer_spiffe_id ssl ++ rest ∧ (rest = [] ∨ ∃ t, rest = 0 :: t)) ∧
      (get_peer_spiffe_id ssl = e.value ↔ (0 : Nat) ∉ e.value)) ∧
    (get_peer_spiffe_id ssl ≠ [] →
      begins_with_spiffe (get_peer_spiffe_id ssl) ∧ (0 : Nat) ∉ get_peer_spiffe_id ssl) ∧
    (get_peer_spiffe_id ssl = [] →
      ∀ cert names, SSL_get_peer_certificate ssl = some cert →
        cert.subject_alt_name = some names → ∀ x ∈ names, ¬ is_spiffe_uri x) := by
  refine ⟨?_, ?_, ?_⟩
  · intro cert pre e post hc hn hpre he
    have h : get_peer_spiffe_id ssl = c_str e.value := by
      unfold get_peer_spiffe_id
      rw [hc]
      simp only [hn]
      exact scan_names_first_match pre e post [] hpre he
    rw [h]
    exact ⟨c_str_split e.value, c_str_eq_self_iff e.value⟩
  · intro hne
    unfold get_peer_spiffe_id at hne ⊢
    cases hc : SSL_get_peer_certificate ssl with
    | none => simp [hc] at hne
    | some cert =>
      cases hn : cert.subject_alt_name with
      | none => simp [hc, hn] at hne
      | some names =>
        simp only [hc, hn] at hne ⊢
        rcases scan_names_nil_or_spiffe names with h | h
        · exact absurd h hne
        · exact h
  · intro hnil cert names hc hn
    unfold get_peer_spiffe_id at hnil
    rw [hc] at hnil
    simp only [hn] at hnil
    exact scan_names_eq_nil names hnil

/-- Witness of C10 at the entry `spiffe://a\0b`: the result is `spiffe://a`,
the rest of the value starts with the NUL byte, and the result differs from
the value. -/
theorem get_peer_spiffe_id_c_string_witness :
    (∃ rest, nul_entry.value
        = get_peer_spiffe_id (session_with SSL_CTX_fresh [nul_entry]) ++ rest ∧
      (rest = [] ∨ ∃ t, rest = 0 :: t)) ∧
    (get_peer_spiffe_id (session_with SSL_CTX_fresh [nul_entry]) = nul_entry.value ↔
      (0 : Nat) ∉ nul_entry.value) :=
  (get_peer_spiffe_id_c_string (session_with SSL_CTX_fresh [nul_entry])).1
    { subject_alt_name := some [nul_entry] } [] nul_entry [] rfl rfl (by decide) (by decide)

/-! ## Credential loading (C4) -/

/-- C4: a context returned by `create_ssl_ctx` has minimum version TLS 1.2,
verify mode `SSL_VERIFY_PEER | SSL_VERIFY_FAIL_IF_NO_PEER_CERT` and depth 2,
and it is returned only if the certificate, the private key and the CA file
were all loaded with a positive return code. -/
theorem create_ssl_ctx_some (o : OpenSSL) (cert_file key_file ca_file : String)
    (ctx : SSL_CTX) (h : create_ssl_ctx o cert_file key_file ca_file = some ctx) :
    ctx.min_proto_version = TLS1_2_VERSION ∧
    ctx.verify_mode = SSL_VERIFY_PEER ||| SSL_VERIFY_FAIL_IF_NO_PEER_CERT ∧
    ctx.verify_depth = 2 ∧
    0 < o.SSL_CTX_use_certificate_file cert_file ∧
    0 < o.SSL_CTX_use_PrivateKey_file cert_file key_file ∧
    0 < o.SSL_CTX_load_verify_locations ca_file := by
  unfold create_ssl_ctx at h
  split_ifs at h with h0 h1 h2 h3
  simp only [Option.some.injEq] at h
  subst h
  refine ⟨rfl, rfl, rfl, ?_, ?_, ?_⟩ <;> omega

/-- Witness of C4: with every load succeeding, a context is returned. -/
theorem create_ssl_ctx_some_witness :
    create_ssl_ctx openssl_ok "cert.pem" "key.pem" "chain.pem" = some example_ctx ∧
    example_ctx.min_proto_version = TLS1_2_VERSION ∧
    example_ctx.verify_mode = SSL_VERIFY_PEER ||| SSL_VERIFY_FAIL_IF_NO_PEER_CERT ∧
    example_ctx.verify_depth = 2 :=
  have h := create_ssl_ctx_some openssl_ok "cert.pem" "key.pem" "chain.pem" example_ctx
    (by decide)
  ⟨by decide, h.1, h.2.1, h.2.2.1⟩

/-! ## Lemmas on traces -/

theorem last_good_append (c0 : SSL_CTX) (a b : List Event) :
    last_good c0 (a ++ b) = last_good (last_good c0 a) b := by
  induction a generalizing c0 with
  | nil => rfl
  | cons ev a ih =>
    cases ev with
    | create_ssl_ctx c k ca r =>
      cases r with
      | none => simpa [last_good] using ih c0
      | some n => simpa [last_good] using ih n
    | _ => simpa [last_good] using ih c0

theorem last_good_no_success (c0 : SSL_CTX) (t : List Event)
    (h : ∀ c k a n, Event.create_ssl_ctx c k a (some n) ∉ t) : last_good c0 t = c0 := by
  induction t with
  | nil => rfl
  | cons ev t ih =>
    have ht : ∀ c k a n, Event.create_ssl_ctx c k a (some n) ∉ t :=
      fun c k a n hm => h c k a n (List.mem_cons_of_mem ev hm)
    cases ev with
    | create_ssl_ctx c k ca r =>
      cases r with
      | none => simpa [last_good] using ih ht
      | some n => exact absurd (List.mem_cons_self _ _) (h c k ca n)
    | _ => simpa [last_good] using ih ht

theorem open_sessions_append (a b : List Event) :
    open_sessions (a ++ b) = open_sessions a + open_sessions b := by
  unfold open_sessions
  simp only [List.countP_append]
  push_cast
  ring

theorem follows_append (c0 : SSL_CTX) (a b : List Event) :
    follows c0 (a ++ b) ↔ follows c0 a ∧ follows (last_good c0 a) b := by
  induction a generalizing c0 with
  | nil => simp [follows, last_good]
  | cons ev a ih =>
    have hl : last_good c0 (ev :: a) = last_good (last_good c0 [ev]) a :=
      last_good_append c0 [ev] a
    rw [hl]
    show ((∀ ssl, ev.session = some ssl → ssl.ctx = c0) ∧
        follows (last_good c0 [ev]) (a ++ b)) ↔
      ((∀ ssl, ev.session = some ssl → ssl.ctx = c0) ∧ follows (last_good c0 [ev]) a) ∧
        follows (last_good (last_good c0 [ev]) a) b
    rw [ih, and_assoc]

theorem quiet_append (k : Int) (a b : List Event) :
    quiet k (a ++ b) ↔ quiet k a ∧ quiet (k + open_sessions a) b := by
  induction a generalizing k with
  | nil => simp [quiet, open_sessions]
  | cons ev a ih =>
    have ho : open_sessions (ev :: a) = open_sessions [ev] + open_sessions a :=
      open_sessions_append [ev] a
    rw [ho]
    show ((ev.is_load = true → k = 0) ∧ quiet (k + open_sessions [ev]) (a ++ b)) ↔
      ((ev.is_load = true → k = 0) ∧ quiet (k + open_sessions [ev]) a) ∧
        quiet (k + (open_sessions [ev] + open_sessions a)) b
    rw [ih, and_assoc, add_assoc]

theorem follows_at (c0 : SSL_CTX) (t1 : List Event) (ev : Event) (t2 : List Event)
    (ssl : SSL) (h : follows c0 (t1 ++ ev :: t2)) (hs : ev.session = some ssl) :
    ssl.ctx = last_good c0 t1 :=
  (((follows_append c0 t1 (ev :: t2)).mp h).2).1 ssl hs

theorem quiet_at (t1 : List Event) (ev : Event) (t2 : List Event)
    (h : quiet 0 (t1 ++ ev :: t2)) (hl : ev.is_load = true) :
    t1.countP Event.is_SSL_new = t1.countP Event.is_SSL_free := by
  have h1 := (((quiet_append 0 t1 (ev :: t2)).mp h).2).1 hl
  unfold open_sessions at h1
  omega

theorem Inv_append {c0 c1 c2 : SSL_CTX} {a b : List Event} {n m : Nat}
    (ha : Inv c0 a c1 n) (hb : Inv c1 b c2 m) : Inv c0 (a ++ b) c2 (n + m) := by
  obtain ⟨a1, a2, a3, a4, a5⟩ := ha
  obtain ⟨b1, b2, b3, b4, b5⟩ := hb
  subst a1
  refine ⟨?_, ?_, ?_, ?_, ?_⟩
  · rw [last_good_append]; exact b1
  · exact (follows_append c0 a b).mpr ⟨a2, b2⟩
  · refine (quiet_append 0 a b).mpr ⟨a3, ?_⟩
    rw [a4]; exact b3
  · rw [open_sessions_append, a4, b4]; rfl
  · rw [List.countP_append, a5, b5]

/-! ## Lemmas on the accept loop -/

theorem reload_check_events (o : OpenSSL) (s : LoopState) :
    ∃ evs, (reload_check o s).trace = s.trace ++ evs ∧
      Inv s.ctx evs (reload_check o s).ctx 0 ∧
      (reload_check o s).cfg = s.cfg ∧
      evs.countP Event.is_load = (if s.g_reload ≠ 0 then 1 else 0) ∧
      (reload_check o s).g_reload = 0 := by
  unfold reload_check
  by_cases hg : s.g_reload ≠ 0
  · rw [if_pos hg]
    cases hc : create_ssl_ctx o s.cfg.cert s.cfg.key s.cfg.ca with
    | none =>
      exact ⟨_, rfl, by simp [Inv, last_good, follows, quiet, open_sessions, Event.session,
        Event.is_load, Event.is_SSL_new, Event.is_SSL_free, Event.is_select], rfl,
        by simp [hg, Event.is_load], rfl⟩
    | some n =>
      exact ⟨_, rfl, by simp [Inv, last_good, follows, quiet, open_sessions, Event.session,
        Event.is_load, Event.is_SSL_new, Event.is_SSL_free, Event.is_select], rfl,
        by simp [hg, Event.is_load], rfl⟩
  · rw [if_neg hg]
    refine ⟨[], by simp, by simp [Inv, last_good, follows, quiet, open_sessions], rfl,
      by simp [hg], ?_⟩
    simpa using hg

theorem serve_events (inp : IterInput) (s : LoopState) :
    ∃ evs, (serve inp s).trace = s.trace ++ evs ∧
      Inv s.ctx evs s.ctx 1 ∧
      (serve inp s).ctx = s.ctx ∧ (serve inp s).cfg = s.cfg ∧
      (serve inp s).g_reload = s.g_reload ∧
      evs.countP Event.is_load = 0 := by
  unfold serve
  split_ifs <;>
    exact ⟨_, rfl, by simp [Inv, last_good, follows, quiet, open_sessions, Event.session,
      Event.is_load, Event.is_SSL_new, Event.is_SSL_free, Event.is_select, SSL_new,
      SSL_set_fd], rfl, rfl, rfl, by simp [Event.is_load]⟩

theorem loop_iter_events (inp : IterInput) (s : LoopState) :
    ∃ evs, (loop_iter inp s).trace = s.trace ++ evs ∧
      Inv s.ctx evs (loop_iter inp s).ctx 1 ∧
      (loop_iter inp s).cfg = s.cfg ∧
      evs.countP Event.is_load = (if s.g_reload ≠ 0 then 1 else 0) ∧
      (loop_iter inp s).g_reload = 0 := by
  obtain ⟨a, ha, hai, hac, hal, hag⟩ := reload_check_events inp.openssl s
  obtain ⟨b, hb, hbi, hbc, hbf, hbg, hbl⟩ := serve_events inp (reload_check inp.openssl s)
  refine ⟨a ++ b, ?_, ?_, ?_, ?_, ?_⟩
  · unfold loop_iter
    rw [hb, ha, List.append_assoc]
  · unfold loop_iter
    rw [hbc]
    have := Inv_append hai hbi
    simpa using this
  · unfold loop_iter
    rw [hbf, hac]
  · rw [List.countP_append, hal, hbl]
    rfl
  · unfold loop_iter
    rw [hbg, hag]

theorem step_events (s : LoopState) (inp : IterInput) :
    ∃ evs, (step s inp).trace = s.trace ++ evs ∧
      Inv s.ctx evs (step s inp).ctx 1 ∧ (step s inp).cfg = s.cfg := by
  obtain ⟨evs, h1, h2, h3, _, _⟩ :=
    loop_iter_events inp { s with g_reload := deliver inp.signals s.g_reload }
  exact ⟨evs, h1, h2, h3⟩

theorem run_events (script : List IterInput) (s : LoopState) :
    ∃ evs, (run script s).trace = s.trace ++ evs ∧
      Inv s.ctx evs (run script s).ctx script.length ∧ (run script s).cfg = s.cfg := by
  induction script generalizing s with
  | nil =>
    exact ⟨[], by simp [run], by simp [run, Inv, last_good, follows, quiet, open_sessions], rfl⟩
  | cons inp script ih =>
    obtain ⟨a, ha, hai, hac⟩ := step_events s inp
    obtain ⟨b, hb, hbi, hbc⟩ := ih (step s inp)
    have hr : run (inp :: script) s = run script (step s inp) := rfl
    refine ⟨a ++ b, ?_, ?_, ?_⟩
    · rw [hr, hb, ha, List.append_assoc]
    · rw [hr]
      have := Inv_append hai hbi
      rw [List.length_cons, Nat.add_comm]
      exact this
    · rw [hr, hbc, hac]

theorem deliver_replicate_SIGHUP (n : Nat) (hn : 1 ≤ n) (g : Int) :
    deliver (List.replicate n SIGHUP) g = 1 := by
  have h1 : ∀ m : Nat, deliver (List.replicate m SIGHUP) 1 = 1 := by
    intro m
    induction m with
    | zero => rfl
    | succ m ih =>
      simpa [deliver, List.replicate_succ, sig_handler] using ih
  obtain ⟨m, rfl⟩ : ∃ m, n = m + 1 := ⟨n - 1, by omega⟩
  have : deliver (List.replicate (m + 1) SIGHUP) g = deliver (List.replicate m SIGHUP) 1 := by
    simp [deliver, List.replicate_succ, sig_handler]
  rw [this]
  exact h1 m

/-! ## The accept loop (C2, C3, C5, C8, C9) and startup (C6) -/

/-- C2: in an iteration that starts with the reload flag set and whose
`create_ssl_ctx` call returns no bundle, the reload block and the whole
iteration leave `ctx` as it was; in every continuation of the loop, each
session operation before which no load has succeeded is on a session of that
same `ctx`; and the loop keeps running: each of the later iterations reaches
its `select` call. -/
theorem failed_reload_keeps_ctx (s : LoopState) (inp : IterInput) (later : List IterInput)
    (hflag : s.g_reload ≠ 0)
    (hfail : create_ssl_ctx inp.openssl s.cfg.cert s.cfg.key s.cfg.ca = none) :
    (reload_check inp.openssl s).ctx = s.ctx ∧ (loop_iter inp s).ctx = s.ctx ∧
    ∃ evs, (run later (loop_iter inp s)).trace = s.trace ++ evs ∧
      (∀ t1 ev t2 ssl, evs = t1 ++ ev :: t2 → ev.session = some ssl →
        (∀ c k a n, Event.create_ssl_ctx c k a (some n) ∉ t1) → ssl.ctx = s.ctx) ∧
      evs.countP Event.is_select = later.length + 1 := by
  have hr : (reload_check inp.openssl s).ctx = s.ctx := by
    unfold reload_check
    rw [if_pos hflag]
    simp only [hfail]
  have hl : (loop_iter inp s).ctx = s.ctx := by
    obtain ⟨_, _, _, h, _⟩ := serve_events inp (reload_check inp.openssl s)
    unfold loop_iter
    rw [h, hr]
  obtain ⟨a, ha, hai, _⟩ := loop_iter_events inp s
  obtain ⟨b, hb, hbi, _⟩ := run_events later (loop_iter inp s)
  have hinv := Inv_append hai hbi
  refine ⟨hr, hl, a ++ b, ?_, ?_, ?_⟩
  · rw [hb, ha, List.append_assoc]
  · intro t1 ev t2 ssl hsplit hs hno
    have hf := hinv.2.1
    rw [hsplit] at hf
    rw [follows_at s.ctx t1 ev t2 ssl hf hs]
    exact last_good_no_success s.ctx t1 hno
  · rw [hinv.2.2.2.2, Nat.add_comm]

/-- C3: over any run of the loop, the trace only grows; the loop ends on the
bundle of the most recent successful load; every session operation, from
`SSL_new` to `SSL_free`, is on a session whose bundle is that of the most
recent successful load before it; and at every `create_ssl_ctx` call all
sessions created so far have been freed, so no session lives across a swap. -/
theorem sessions_use_latest_bundle (s : LoopState) (script : List IterInput) :
    ∃ evs, (run script s).trace = s.trace ++ evs ∧
      (run script s).ctx = last_good s.ctx evs ∧
      (∀ t1 ev t2 ssl, evs = t1 ++ ev :: t2 → ev.session = some ssl →
        ssl.ctx = last_good s.ctx t1) ∧
      (∀ t1 ev t2, evs = t1 ++ ev :: t2 → ev.is_load = true →
        t1.countP Event.is_SSL_new = t1.countP Event.is_SSL_free) := by
  obtain ⟨evs, h1, hinv, _⟩ := run_events script s
  refine ⟨evs, h1, hinv.1, ?_, ?_⟩
  · intro t1 ev t2 ssl hsplit hs
    have hf := hinv.2.1
    rw [hsplit] at hf
    exact follows_at s.ctx t1 ev t2 ssl hf hs
  · intro t1 ev t2 hsplit hl
    have hq := hinv.2.2.1
    rw [hsplit] at hq
    exact quiet_at t1 ev t2 hq hl

/-- C5: when `select` reports a connection and `SSL_accept` fails, the events
of the connection contain the report on `stderr`, the `SSL_free` of the
session and the `close` of the socket, leave no session open, and contain no
identity extraction, no `SSL_write` and no output on `stdout`; `ctx` is
unchanged; and each of the later iterations reaches its `select` call. -/
theorem failed_handshake_is_local (s : LoopState) (inp : IterInput) (later : List IterInput)
    (hsel : 0 < inp.select_result) (hfail : inp.handshake ≤ 0) :
    (∃ evs, (serve inp s).trace = s.trace ++ evs ∧
      Event.stderr (bytes "TLS handshake failed\n") ∈ evs ∧
      Event.SSL_free (SSL_set_fd (SSL_new s.ctx) inp.client) ∈ evs ∧
      Event.close inp.client ∈ evs ∧
      open_sessions evs = 0 ∧
      (∀ ssl, Event.get_peer_spiffe_id ssl ∉ evs) ∧
      (∀ ssl d, Event.SSL_write ssl d ∉ evs) ∧
      (∀ d, Event.stdout d ∉ evs)) ∧
    (serve inp s).ctx = s.ctx ∧
    ∃ evs2, (run later (serve inp s)).trace = (serve inp s).trace ++ evs2 ∧
      evs2.countP Event.is_select = later.length := by
  refine ⟨?_, ?_, ?_⟩
  · unfold serve
    rw [if_neg (not_le.mpr hsel)]
    simp only [if_pos hfail]
    exact ⟨_, rfl, by simp, by simp, by simp,
      by simp [open_sessions, Event.is_SSL_new, Event.is_SSL_free], by simp, by simp, by simp⟩
  · exact (serve_events inp s).choose_spec.2.2.1
  · obtain ⟨b, hb, hbi, _⟩ := run_events later (serve inp s)
    exact ⟨b, hb, hbi.2.2.2.2⟩

/-- C6: when the first `create_ssl_ctx` call of `main` returns no bundle,
`main` returns 1 after writing the failure to `stderr`, and its trace has no
socket, bind, listen, select, accept or session event, whatever connections
and signals would have followed. -/
theorem startup_failure_is_fatal (w : World) (argv : List String) (script : List IterInput)
    (h : create_ssl_ctx w.openssl (startup_config w argv).cert (startup_config w argv).key
      (startup_config w argv).ca = none) :
    ∃ tr, main w argv script = Outcome.exited 1 tr ∧ (1 : Int) ≠ 0 ∧
      Event.stderr (bytes "Failed to create SSL context\n") ∈ tr ∧
      ∀ ev ∈ tr, ev.is_network = false := by
  unfold main
  simp only [h]
  refine ⟨_, rfl, by decide, by simp, ?_⟩
  intro ev hev
  simp only [startup_trace, List.cons_append, List.nil_append, List.mem_cons,
    List.mem_singleton, List.not_mem_nil, or_false] at hev
  rcases hev with rfl | rfl | rfl | rfl | rfl | rfl <;> rfl

/-- C8: for every `n ≥ 1`, when `n` SIGHUPs are delivered before the loop
tests the flag, the flag is set at the test, the iteration makes exactly one
`create_ssl_ctx` call, and the flag is clear afterwards. -/
theorem sighups_coalesce (n : Nat) (hn : 1 ≤ n) (s : LoopState) (inp : IterInput)
    (hs : inp.signals = List.replicate n SIGHUP) :
    deliver inp.signals s.g_reload = 1 ∧
    ∃ evs, (step s inp).trace = s.trace ++ evs ∧
      evs.countP Event.is_load = 1 ∧ (step s inp).g_reload = 0 := by
  have hd : deliver inp.signals s.g_reload = 1 := by
    rw [hs]
    exact deliver_replicate_SIGHUP n hn s.g_reload
  obtain ⟨evs, h1, _, _, h4, h5⟩ :=
    loop_iter_events inp { s with g_reload := deliver inp.signals s.g_reload }
  refine ⟨hd, evs, h1, ?_, h5⟩
  rw [h4]
  simp [hd]

/-- C9, amended: in an iteration that starts with the reload flag set and
whose `create_ssl_ctx` call returns a bundle, the iteration writes
`Certs reloaded` to `stdout`. -/
theorem successful_reload_is_reported (s : LoopState) (inp : IterInput) (n : SSL_CTX)
    (hflag : s.g_reload ≠ 0)
    (hok : create_ssl_ctx inp.openssl s.cfg.cert s.cfg.key s.cfg.ca = some n) :
    ∃ evs, (loop_iter inp s).trace = s.trace ++ evs ∧
      Event.stdout (bytes "Certs reloaded\n") ∈ evs := by
  obtain ⟨b, hb, _⟩ := serve_events inp (reload_check inp.openssl s)
  have ha : (reload_check inp.openssl s).trace = s.trace ++
      [Event.create_ssl_ctx s.cfg.cert s.cfg.key s.cfg.ca (some n), Event.SSL_CTX_free s.ctx,
       Event.stdout (bytes "Certs reloaded\n")] := by
    unfold reload_check
    rw [if_pos hflag]
    simp only [hok]
  refine ⟨[Event.create_ssl_ctx s.cfg.cert s.cfg.key s.cfg.ca (some n),
    Event.SSL_CTX_free s.ctx, Event.stdout (bytes "Certs reloaded\n")] ++ b, ?_, ?_⟩
  · unfold loop_iter
    rw [hb, ha, List.append_assoc]
  · simp

/-! ## Evaluations of the accept loop at concrete inputs -/

/-- Witness of C2: with the flag set and a mismatched key, the iteration keeps
`old_ctx`, and the connection of the next iteration is served on it. -/
theorem failed_reload_keeps_ctx_witness :
    (loop_iter (idle_input [] openssl_bad_key) flagged_state).ctx = old_ctx ∧
    created_on (run [conn_input [] openssl_bad_key 4 1 (some example_names)]
      (loop_iter (idle_input [] openssl_bad_key) flagged_state)).trace = [old_ctx] :=
  ⟨(failed_reload_keeps_ctx flagged_state (idle_input [] openssl_bad_key)
      [conn_input [] openssl_bad_key 4 1 (some example_names)]
      (by decide) (by decide)).2.1,
   by decide⟩

/-- Witness of C3: the connection before the reload is served on `old_ctx`,
the one after it on the newly loaded bundle. -/
theorem sessions_use_latest_bundle_witness :
    created_on (run reload_script idle_state).trace = [old_ctx, example_ctx] ∧
    (run reload_script idle_state).ctx = example_ctx ∧
    ∃ evs, (run reload_script idle_state).trace = idle_state.trace ++ evs ∧
      (run reload_script idle_state).ctx = last_good idle_state.ctx evs ∧
      (∀ t1 ev t2 ssl, evs = t1 ++ ev :: t2 → ev.session = some ssl →
        ssl.ctx = last_good idle_state.ctx t1) ∧
      (∀ t1 ev t2, evs = t1 ++ ev :: t2 → ev.is_load = true →
        t1.countP Event.is_SSL_new = t1.countP Event.is_SSL_free) :=
  ⟨by decide, by decide, sessions_use_latest_bundle idle_state reload_script⟩

/-- Witness of C5: a client without certificate, whose handshake fails. -/
theorem failed_handshake_is_local_witness :
    (serve (conn_input [] openssl_ok 4 0 none) idle_state).ctx = old_ctx ∧
    (serve (conn_input [] openssl_ok 4 0 none) idle_state).trace =
      [Event.select 1, Event.accept 4, Event.SSL_new (SSL_new old_ctx),
       Event.SSL_set_fd (SSL_new old_ctx) 4,
       Event.SSL_accept (SSL_set_fd (SSL_new old_ctx) 4) 0,
       Event.stderr (bytes "TLS handshake failed\n"),
       Event.SSL_free (SSL_set_fd (SSL_new old_ctx) 4), Event.close 4] :=
  ⟨(failed_handshake_is_local idle_state (conn_input [] openssl_ok 4 0 none) reload_script
      (by decide) (by decide)).2.1,
   by decide⟩

/-- Witness of C6: started with a mismatched key, `main` exits with status 1
and never opens a socket, although a connection is waiting. -/
theorem startup_failure_is_fatal_witness :
    ∃ tr, main bad_world ["service-a", "--cert", "cert.pem"] reload_script
        = Outcome.exited 1 tr ∧ (1 : Int) ≠ 0 ∧
      Event.stderr (bytes "Failed to create SSL context\n") ∈ tr ∧
      ∀ ev ∈ tr, ev.is_network = false :=
  startup_failure_is_fatal bad_world ["service-a", "--cert", "cert.pem"] reload_script
    (by decide)

/-- Witness of C8: two SIGHUPs before the test give one `create_ssl_ctx` call. -/
theorem sighups_coalesce_witness :
    deliver [SIGHUP, SIGHUP] 0 = 1 ∧
    ∃ evs, (step idle_state (idle_input [SIGHUP, SIGHUP] openssl_ok)).trace
        = idle_state.trace ++ evs ∧
      evs.countP Event.is_load = 1 ∧
      (step idle_state (idle_input [SIGHUP, SIGHUP] openssl_ok)).g_reload = 0 :=
  sighups_coalesce 2 (by decide) idle_state (idle_input [SIGHUP, SIGHUP] openssl_ok) rfl

/-- C9, as stated, fails: with the flag set and a mismatched key, the
iteration makes its `create_ssl_ctx` call, which returns no bundle, and
writes nothing to `stdout` or `stderr`. -/
theorem failed_reload_is_silent :
    flagged_state.g_reload ≠ 0 ∧
    create_ssl_ctx openssl_bad_key flagged_state.cfg.cert flagged_state.cfg.key
      flagged_state.cfg.ca = none ∧
    (loop_iter (idle_input [] openssl_bad_key) flagged_state).trace =
      [Event.create_ssl_ctx "cert.pem" "key.pem" "chain.pem" none, Event.select 0] ∧
    (loop_iter (idle_input [] openssl_bad_key) flagged_state).trace.filter Event.is_report
      = [] := by
  decide

/-- Witness of C9, amended: with the flag set and loadable files, the iteration
reports the reload. -/
theorem successful_reload_is_reported_witness :
    ∃ evs, (loop_iter (idle_input [] openssl_ok) flagged_state).trace
        = flagged_state.trace ++ evs ∧
      Event.stdout (bytes "Certs reloaded\n") ∈ evs :=
  successful_reload_is_reported flagged_state (idle_input [] openssl_ok) example_ctx
    (by decide) (by decide)

end ServiceA
